import Mathlib

/-!
Shallow embedding of the provider-matrix repository: the Matrix wire client
(identifier validation, not-found classification, user/room/power-level/alias
operations) and the per-kind reconcilers (Observe/Create/Update/Delete) with
their mapping and equality-check helpers.

Go strings are modelled as Lean `String`; Go maps `map[string]K` as
association lists with the keys understood to be pairwise distinct (Go map
semantics); Go `*T` pointers used as optional values as `Option T`; Go errors
as an explicit error datatype distinguishing `mautrix.HTTPError` values (on
which the source performs a type assertion) from all other errors, carrying
the `Error()` message text.  HTTP traffic is modelled by an oracle structure
(`Wire`) giving each underlying endpoint's response, and every client
operation returns, besides its result, the ordered list of wire calls it
issued.
-/

deriving instance DecidableEq for Except

namespace ProviderMatrix

/-- Split a list of characters on a separator character, mirroring Go's
`strings.Split` for a single-character separator: `n` separators yield
`n+1` (possibly empty) fields. -/
def splitChars (sep : Char) : List Char → List (List Char)
  | [] => [[]]
  | c :: cs =>
    let r := splitChars sep cs
    if c == sep then [] :: r
    else
      match r with
      | [] => [[c]]
      | h :: t => (c :: h) :: t

/-- Go `strings.Split(s, sep)` for a one-character separator. -/
def goSplit (s : String) (sep : Char) : List String :=
  (splitChars sep s.toList).map (fun l => String.mk l)

/-- Go `strings.HasPrefix(s, string(c))` for a one-character pattern:
does `s` start with the sigil character `c`? -/
def goHasSigil (s : String) (c : Char) : Bool :=
  match s.toList with
  | [] => false
  | c' :: _ => c' == c

/-- Go `s[1:]`: drop the first byte.  All uses in the source follow a
successful one-ASCII-character sigil check, where byte- and
character-dropping agree. -/
def goDrop1 (s : String) : String :=
  String.mk (s.toList.drop 1)

/-- Substring containment on character lists (helper for `goContains`). -/
def listContainsSub (sub : List Char) : List Char → Bool
  | [] => sub.isEmpty
  | c :: t => sub.isPrefixOf (c :: t) || listContainsSub sub t

/-- Go `strings.Contains(s, sub)`. -/
def goContains (s sub : String) : Bool :=
  listContainsSub sub.toList s.toList

/-- Go `strings.ToLower` (ASCII, which is all the source compares). -/
def goToLower (s : String) : String :=
  String.mk (s.toList.map Char.toLower)

/-- `validateMatrixID` from the client (`internal/clients`): a sigil check
chosen by `idType`, then `strings.Split(matrixID[1:], ":")` must yield
exactly two parts.  Returns the Go error message on failure. -/
def validateMatrixID (matrixID idType : String) : Except String Unit :=
  if idType == "user" && !(goHasSigil matrixID '@') then
    .error "user ID must start with @"
  else if idType == "room" && !(goHasSigil matrixID '!') then
    .error "room ID must start with !"
  else if idType == "alias" && !(goHasSigil matrixID '#') then
    .error "room alias must start with #"
  else if (goSplit (goDrop1 matrixID) ':').length ≠ 2 then
    .error ("invalid Matrix ID format: " ++ matrixID)
  else
    .ok ()

/-- `extractDomain` from the client. -/
def extractDomain (matrixID : String) : String :=
  match goSplit matrixID ':' with
  | [_, d] => d
  | _ => ""

/-! ## Error model

`MatrixError` distinguishes `mautrix.HTTPError` values — on which `IsNotFound`
performs a type assertion and inspects `RespError.ErrCode` — from every other
Go error (including anything produced by `errors.New`/`errors.Wrap`, since
wrapping hides the concrete type from the assertion).  Both carry the
`Error()` message text. -/

inductive MatrixError where
  /-- a `mautrix.HTTPError`; `respErrCode` is `RespError.ErrCode` when
  `RespError != nil`, `none` when `RespError == nil` -/
  | httpError (respErrCode : Option String) (msg : String)
  /-- any other Go error, identified by its message -/
  | plain (msg : String)
deriving DecidableEq, Repr

/-- The Go `Error()` message of an error value. -/
def MatrixError.message : MatrixError → String
  | .httpError _ m => m
  | .plain m => m

/-- `errors.Wrap(err, msg)`: message becomes `msg ++ ": " ++ err.Error()`,
and the result no longer satisfies a `mautrix.HTTPError` type assertion. -/
def wrapErr (e : MatrixError) (msg : String) : MatrixError :=
  .plain (msg ++ ": " ++ e.message)

/-- `IsNotFound` from the client.  The source returns early inside the
`mautrix.HTTPError` type-assertion branch, so for an HTTP error only the
structured code is consulted; the textual checks run only for other errors. -/
def IsNotFound : Option MatrixError → Bool
  | none => false
  | some (.httpError respErrCode _) => respErrCode == some "M_NOT_FOUND"
  | some (.plain msg) =>
      goContains msg "404" || goContains (goToLower msg) "not found"

/-! ## Wire data types (`internal/clients` structs)

Every field default is the corresponding Go zero value, so a Lean record
literal that sets only some fields models the corresponding Go struct
literal.  `map[string]int` is `GoMap`; timestamps are opaque integers;
JSON payloads the code never inspects (`map[string]interface{}`,
`runtime.RawExtension`) are opaque strings. -/

/-- A Go `map[string]int`: an association list with pairwise-distinct keys. -/
abbrev GoMap := List (String × Int)

/-- Go map indexing `m[k]` returning `(value, ok)`. -/
def lookupGo : GoMap → String → Option Int
  | [], _ => none
  | (k', v) :: t, k => if k' == k then some v else lookupGo t k

/-- Opaque timestamp (`time.Time`). -/
abbrev GoTime := Int

/-- `clients.ExternalID`. -/
structure ExternalID where
  medium : String := ""
  address : String := ""
  validated : Bool := false
deriving DecidableEq, Repr

/-- `clients.Device`. -/
structure Device where
  deviceID : String := ""
  displayName : String := ""
  lastSeenIP : String := ""
  lastSeenTime : Option GoTime := none
deriving DecidableEq, Repr

/-- `clients.User`. -/
structure User where
  userID : String := ""
  displayName : String := ""
  avatarURL : String := ""
  admin : Bool := false
  deactivated : Bool := false
  creationTime : Option GoTime := none
  lastSeenTime : Option GoTime := none
  userType : String := ""
  externalIDs : List ExternalID := []
  devices : List Device := []
deriving DecidableEq, Repr

/-- `clients.UserSpec`. -/
structure UserSpec where
  userID : String := ""
  localpart : String := ""
  password : String := ""
  displayName : String := ""
  avatarURL : String := ""
  admin : Bool := false
  deactivated : Bool := false
  userType : String := ""
  externalIDs : List ExternalID := []
  expireTime : Option GoTime := none
deriving DecidableEq, Repr

/-- `clients.StateEvent` (content payload opaque). -/
structure StateEvent where
  type : String := ""
  stateKey : String := ""
  content : String := ""
deriving DecidableEq, Repr

/-- `clients.PowerLevelContent` (pointer fields as `Option`). -/
structure PowerLevelContent where
  users : GoMap := []
  events : GoMap := []
  eventsDefault : Option Int := none
  stateDefault : Option Int := none
  usersDefault : Option Int := none
  ban : Option Int := none
  kick : Option Int := none
  redact : Option Int := none
  invite : Option Int := none
deriving DecidableEq, Repr

/-- mautrix `event.PowerLevelsEventContent`: `EventsDefault`/`UsersDefault`
are plain ints, the rest of the defaults are pointers. -/
structure MautrixPowerLevels where
  users : GoMap := []
  events : GoMap := []
  eventsDefault : Int := 0
  stateDefaultPtr : Option Int := none
  usersDefault : Int := 0
  banPtr : Option Int := none
  kickPtr : Option Int := none
  redactPtr : Option Int := none
  invitePtr : Option Int := none
deriving DecidableEq, Repr

/-- `clients.Room`. -/
structure Room where
  roomID : String := ""
  name : String := ""
  topic : String := ""
  aliasName : String := ""
  avatarURL : String := ""
  creator : String := ""
  creationTime : Option GoTime := none
  roomVersion : String := ""
  joinedMembers : Int := 0
  invitedMembers : Int := 0
  visibility : String := ""
  guestAccess : String := ""
  historyVisibility : String := ""
  joinRules : String := ""
  encryptionEnabled : Bool := false
  powerLevels : Option PowerLevelContent := none
  state : List StateEvent := []
deriving DecidableEq, Repr

/-- `clients.RoomSpec`. -/
structure RoomSpec where
  name : String := ""
  topic : String := ""
  aliasName : String := ""
  preset : String := ""
  visibility : String := ""
  roomVersion : String := ""
  creationContent : Option String := none
  initialState : List StateEvent := []
  invite : List String := []
  powerLevelOverrides : Option PowerLevelContent := none
  guestAccess : String := ""
  historyVisibility : String := ""
  joinRules : String := ""
  encryptionEnabled : Bool := false
  avatarURL : String := ""
deriving DecidableEq, Repr

/-- `clients.PowerLevelSpec` (the `PowerLevels` pointer is always allocated
by its only producer, `generatePowerLevelSpec`, so it is not optional). -/
structure PowerLevelSpec where
  roomID : String := ""
  powerLevels : PowerLevelContent := {}
deriving DecidableEq, Repr

/-- `clients.RoomAlias`. -/
structure RoomAlias where
  aliasName : String := ""
  roomID : String := ""
deriving DecidableEq, Repr

/-- mautrix profile response (`GetProfile`). -/
structure Profile where
  displayName : String := ""
  avatarURL : String := ""
deriving DecidableEq, Repr

/-- `mautrix.ReqCreateRoom` as populated by `matrixClient.CreateRoom`. -/
structure ReqCreateRoom where
  name : String := ""
  topic : String := ""
  roomAliasName : String := ""
  preset : String := ""
  visibility : String := ""
  roomVersion : String := ""
  creationContent : Option String := none
  invite : List String := []
  initialState : List StateEvent := []
  powerLevelOverride : Option MautrixPowerLevels := none
deriving DecidableEq, Repr

/-- `getIntValue` from the client. -/
def getIntValue (ptr : Option Int) (defaultValue : Int) : Int :=
  match ptr with
  | some v => v
  | none => defaultValue

/-- The power-level conversion performed by `CreateRoom`/`SetPowerLevels`
when building `event.PowerLevelsEventContent` from `clients.PowerLevelContent`
(user-ID map conversion is the identity in this model). -/
def plToMautrix (p : PowerLevelContent) : MautrixPowerLevels :=
  { users := p.users
    events := p.events
    eventsDefault := getIntValue p.eventsDefault 0
    stateDefaultPtr := p.stateDefault
    usersDefault := getIntValue p.usersDefault 0
    banPtr := p.ban
    kickPtr := p.kick
    redactPtr := p.redact
    invitePtr := p.invite }

/-- The inverse conversion performed by `GetRoom`/`GetPowerLevels`:
`EventsDefault`/`UsersDefault` pointers are taken of plain ints, so those
two are always `some`. -/
def mautrixToPl (c : MautrixPowerLevels) : PowerLevelContent :=
  { users := c.users
    events := c.events
    eventsDefault := some c.eventsDefault
    stateDefault := c.stateDefaultPtr
    usersDefault := some c.usersDefault
    ban := c.banPtr
    kick := c.kickPtr
    redact := c.redactPtr
    invite := c.invitePtr }

/-! ## Wire oracle and call trace -/

/-- Matrix state-event types used by the client. -/
def evGuestAccess : String := "m.room.guest_access"

/-- `m.room.history_visibility`. -/
def evHistoryVisibility : String := "m.room.history_visibility"

/-- `m.room.join_rules`. -/
def evJoinRules : String := "m.room.join_rules"

/-- `m.room.encryption`. -/
def evEncryption : String := "m.room.encryption"

/-- `m.room.avatar`. -/
def evRoomAvatar : String := "m.room.avatar"

/-- `m.room.name`. -/
def evRoomName : String := "m.room.name"

/-- `m.room.topic`. -/
def evTopic : String := "m.room.topic"

/-- `m.room.canonical_alias`. -/
def evCanonicalAlias : String := "m.room.canonical_alias"

/-- `m.room.power_levels`. -/
def evPowerLevels : String := "m.room.power_levels"

/-- One outgoing HTTP interaction of the wire client. -/
inductive WireCall where
  | adminCreateUser (spec : UserSpec)
  | adminGetUser (userID : String)
  | adminUpdateUser (userID : String) (spec : UserSpec)
  | adminDeactivateUser (userID : String)
  | getProfile (userID : String)
  | setDisplayName (name : String)
  | setAvatarURL (url : String)
  | createRoomCall (req : ReqCreateRoom)
  | sendState (roomID : String) (eventType : String)
  | stateRead (roomID : String) (eventType : String)
  | adminGetRoomDetails (roomID : String)
  | adminDeleteRoom (roomID : String) (block : Bool) (purge : Bool)
  | createAlias (aliasName : String) (roomID : String)
  | resolveAlias (aliasName : String)
  | deleteAlias (aliasName : String)
deriving DecidableEq, Repr

/-- Response oracle for the remote homeserver (standard and admin APIs),
plus the pure mautrix URI parser the avatar paths call.  Quantifying
theorems over `Wire` quantifies over every possible server behaviour. -/
structure Wire where
  adminCreateUser : UserSpec → Except MatrixError User
  adminGetUser : String → Except MatrixError User
  adminUpdateUser : String → UserSpec → Except MatrixError User
  adminDeactivateUser : String → Except MatrixError Unit
  getProfile : String → Except MatrixError Profile
  setDisplayName : String → Except MatrixError Unit
  setAvatarURL : String → Except MatrixError Unit
  /-- `id.ParseContentURI` (pure library code, abstracted by outcome) -/
  parseContentURI : String → Except String Unit
  createRoom : ReqCreateRoom → Except MatrixError String
  sendState : String → String → Except MatrixError Unit
  adminGetRoomDetails : String → Except MatrixError Room
  adminDeleteRoom : String → Except MatrixError Unit
  readName : String → Except MatrixError String
  readTopic : String → Except MatrixError String
  readAlias : String → Except MatrixError String
  readAvatar : String → Except MatrixError String
  readPowerLevels : String → Except MatrixError MautrixPowerLevels
  createAlias : String → String → Except MatrixError Unit
  resolveAlias : String → Except MatrixError String
  deleteAlias : String → Except MatrixError Unit

/-! ## Client operations (`matrixClient` methods)

Each operation takes the oracle and `admin : Bool` (modelling
`c.adminClient != nil`) and returns its Go result together with the ordered
list of wire calls it issued. -/

/-- `matrixClient.CreateUser`: no identifier validation; admin API or a
capability error. -/
def CreateUser (w : Wire) (admin : Bool) (spec : UserSpec) :
    Except MatrixError User × List WireCall :=
  if admin then
    (w.adminCreateUser spec, [.adminCreateUser spec])
  else
    (.error (.plain "user creation requires admin API access"), [])

/-- `matrixClient.GetUser`. -/
def GetUser (w : Wire) (admin : Bool) (userID : String) :
    Except MatrixError User × List WireCall :=
  match validateMatrixID userID "user" with
  | .error m => (.error (.plain ("invalid user ID: " ++ m)), [])
  | .ok _ =>
    if admin then
      (w.adminGetUser userID, [.adminGetUser userID])
    else
      match w.getProfile userID with
      | .error e =>
        (.error (wrapErr e "failed to get user profile"), [.getProfile userID])
      | .ok p =>
        (.ok { userID := userID, displayName := p.displayName,
               avatarURL := p.avatarURL },
         [.getProfile userID])

/-- `matrixClient.UpdateUser`. -/
def UpdateUser (w : Wire) (admin : Bool) (userID : String) (spec : UserSpec) :
    Except MatrixError User × List WireCall :=
  match validateMatrixID userID "user" with
  | .error m => (.error (.plain ("invalid user ID: " ++ m)), [])
  | .ok _ =>
    if admin then
      (w.adminUpdateUser userID spec, [.adminUpdateUser userID spec])
    else
      let dnStep : Except MatrixError Unit × List WireCall :=
        if spec.displayName != "" then
          match w.setDisplayName spec.displayName with
          | .error e =>
            (.error (wrapErr e "failed to set display name"),
             [.setDisplayName spec.displayName])
          | .ok _ => (.ok (), [.setDisplayName spec.displayName])
        else (.ok (), [])
      match dnStep with
      | (.error e, tr) => (.error e, tr)
      | (.ok _, tr1) =>
        let avStep : Except MatrixError Unit × List WireCall :=
          if spec.avatarURL != "" then
            match w.parseContentURI spec.avatarURL with
            | .error m => (.error (.plain ("invalid avatar URL: " ++ m)), [])
            | .ok _ =>
              match w.setAvatarURL spec.avatarURL with
              | .error e =>
                (.error (wrapErr e "failed to set avatar URL"),
                 [.setAvatarURL spec.avatarURL])
              | .ok _ => (.ok (), [.setAvatarURL spec.avatarURL])
          else (.ok (), [])
        match avStep with
        | (.error e, tr2) => (.error e, tr1 ++ tr2)
        | (.ok _, tr2) =>
          let (r, tr3) := GetUser w admin userID
          (r, tr1 ++ tr2 ++ tr3)

/-- `matrixClient.DeactivateUser`: the admin-capability check runs BEFORE
identifier validation. -/
def DeactivateUser (w : Wire) (admin : Bool) (userID : String) :
    Except MatrixError Unit × List WireCall :=
  if !admin then
    (.error (.plain "user deactivation requires admin API access"), [])
  else
    match validateMatrixID userID "user" with
    | .error m => (.error (.plain ("invalid user ID: " ++ m)), [])
    | .ok _ => (w.adminDeactivateUser userID, [.adminDeactivateUser userID])

/-- The `mautrix.ReqCreateRoom` built at the top of `CreateRoom`. -/
def reqForRoomSpec (spec : RoomSpec) : ReqCreateRoom :=
  { name := spec.name
    topic := spec.topic
    roomAliasName := spec.aliasName
    preset := spec.preset
    visibility := spec.visibility
    roomVersion := spec.roomVersion
    creationContent := spec.creationContent
    invite := spec.invite
    initialState := spec.initialState
    powerLevelOverride := spec.powerLevelOverrides.map plToMautrix }

/-- The five standard-API state reads `GetRoom` falls back to. -/
def fallbackReads (roomID : String) : List WireCall :=
  [.stateRead roomID evRoomName, .stateRead roomID evTopic,
   .stateRead roomID evCanonicalAlias, .stateRead roomID evRoomAvatar,
   .stateRead roomID evPowerLevels]

/-- `matrixClient.GetRoom`: admin room-details endpoint first when
available, otherwise (or on any admin error) the room is assembled from
five standard state reads, each failure leaving the field at its zero
value.  Note no read covers the encryption state: the assembled room
always has `encryptionEnabled = false`. -/
def GetRoom (w : Wire) (admin : Bool) (roomID : String) :
    Except MatrixError Room × List WireCall :=
  match validateMatrixID roomID "room" with
  | .error m => (.error (.plain ("invalid room ID: " ++ m)), [])
  | .ok _ =>
    let fallbackRoom : Room :=
      { roomID := roomID
        name := match w.readName roomID with | .ok c => c | .error _ => ""
        topic := match w.readTopic roomID with | .ok c => c | .error _ => ""
        aliasName := match w.readAlias roomID with
                 | .ok a => if a != "" then a else ""
                 | .error _ => ""
        avatarURL := match w.readAvatar roomID with | .ok u => u | .error _ => ""
        powerLevels := match w.readPowerLevels roomID with
                       | .ok pc => some (mautrixToPl pc)
                       | .error _ => none }
    if admin then
      match w.adminGetRoomDetails roomID with
      | .ok room => (.ok room, [.adminGetRoomDetails roomID])
      | .error _ =>
        (.ok fallbackRoom, .adminGetRoomDetails roomID :: fallbackReads roomID)
    else
      (.ok fallbackRoom, fallbackReads roomID)

/-- Sequential conditional `SendStateEvent` steps, each guarded by its spec
field being set and aborting the remainder on the first failure with the
step's wrap message (the shared shape of `CreateRoom`'s first four
follow-ups and `UpdateRoom`'s two writes). -/
def runFollowUps (w : Wire) (roomID : String) :
    List (Bool × String × String) → Except MatrixError Unit × List WireCall
  | [] => (.ok (), [])
  | (cond, ty, msg) :: rest =>
    if cond then
      match w.sendState roomID ty with
      | .error e => (.error (wrapErr e msg), [.sendState roomID ty])
      | .ok _ =>
        let (r, tr) := runFollowUps w roomID rest
        (r, .sendState roomID ty :: tr)
    else runFollowUps w roomID rest

/-- `matrixClient.CreateRoom`: one creation call, then conditional
follow-up state writes (guest access, history visibility, join rules,
encryption, avatar — the avatar step parses the URI first), then `GetRoom`
on the new room ID. -/
def CreateRoom (w : Wire) (admin : Bool) (spec : RoomSpec) :
    Except MatrixError Room × List WireCall :=
  let req := reqForRoomSpec spec
  match w.createRoom req with
  | .error e => (.error (wrapErr e "failed to create room"), [.createRoomCall req])
  | .ok roomID =>
    match runFollowUps w roomID
        [(spec.guestAccess != "", evGuestAccess, "failed to set guest access"),
         (spec.historyVisibility != "", evHistoryVisibility,
          "failed to set history visibility"),
         (spec.joinRules != "", evJoinRules, "failed to set join rules"),
         (spec.encryptionEnabled, evEncryption, "failed to enable encryption")] with
    | (.error e, tr) => (.error e, .createRoomCall req :: tr)
    | (.ok _, tr) =>
      if spec.avatarURL != "" then
        match w.parseContentURI spec.avatarURL with
        | .error m =>
          (.error (.plain ("invalid avatar URL: " ++ m)), .createRoomCall req :: tr)
        | .ok _ =>
          match w.sendState roomID evRoomAvatar with
          | .error e =>
            (.error (wrapErr e "failed to set avatar"),
             .createRoomCall req :: (tr ++ [.sendState roomID evRoomAvatar]))
          | .ok _ =>
            let (r, gtr) := GetRoom w admin roomID
            (r, .createRoomCall req :: (tr ++ [.sendState roomID evRoomAvatar] ++ gtr))
      else
        let (r, gtr) := GetRoom w admin roomID
        (r, .createRoomCall req :: (tr ++ gtr))

/-- `matrixClient.UpdateRoom`: conditional name/topic state writes then
`GetRoom`. -/
def UpdateRoom (w : Wire) (admin : Bool) (roomID : String) (spec : RoomSpec) :
    Except MatrixError Room × List WireCall :=
  match validateMatrixID roomID "room" with
  | .error m => (.error (.plain ("invalid room ID: " ++ m)), [])
  | .ok _ =>
    match runFollowUps w roomID
        [(spec.name != "", evRoomName, "failed to update room name"),
         (spec.topic != "", evTopic, "failed to update room topic")] with
    | (.error e, tr) => (.error e, tr)
    | (.ok _, tr) =>
      let (r, gtr) := GetRoom w admin roomID
      (r, tr ++ gtr)

/-- `matrixClient.DeleteRoom`: the admin-capability check runs BEFORE
identifier validation; always requests `block=false, purge=true`. -/
def DeleteRoom (w : Wire) (admin : Bool) (roomID : String) :
    Except MatrixError Unit × List WireCall :=
  if !admin then
    (.error (.plain "room deletion requires admin API access"), [])
  else
    match validateMatrixID roomID "room" with
    | .error m => (.error (.plain ("invalid room ID: " ++ m)), [])
    | .ok _ => (w.adminDeleteRoom roomID, [.adminDeleteRoom roomID false true])

/-- `matrixClient.SetPowerLevels`: one power-levels state write. -/
def SetPowerLevels (w : Wire) (roomID : String) (powerLevels : PowerLevelSpec) :
    Except MatrixError Unit × List WireCall :=
  match validateMatrixID roomID "room" with
  | .error m => (.error (.plain ("invalid room ID: " ++ m)), [])
  | .ok _ =>
    let _content := plToMautrix powerLevels.powerLevels
    match w.sendState roomID evPowerLevels with
    | .error e =>
      (.error (wrapErr e "failed to set power levels"),
       [.sendState roomID evPowerLevels])
    | .ok _ => (.ok (), [.sendState roomID evPowerLevels])

/-- `matrixClient.GetPowerLevels`: one power-levels state read (failing,
unlike `GetRoom`'s tolerant reads, on a read error). -/
def GetPowerLevels (w : Wire) (roomID : String) :
    Except MatrixError PowerLevelContent × List WireCall :=
  match validateMatrixID roomID "room" with
  | .error m => (.error (.plain ("invalid room ID: " ++ m)), [])
  | .ok _ =>
    match w.readPowerLevels roomID with
    | .error e =>
      (.error (wrapErr e "failed to get power levels"),
       [.stateRead roomID evPowerLevels])
    | .ok pc => (.ok (mautrixToPl pc), [.stateRead roomID evPowerLevels])

/-- `matrixClient.CreateRoomAlias`: validates the alias then the room ID,
then one alias-creation call. -/
def CreateRoomAlias (w : Wire) (aliasName roomID : String) :
    Except MatrixError Unit × List WireCall :=
  match validateMatrixID aliasName "alias" with
  | .error m => (.error (.plain ("invalid alias: " ++ m)), [])
  | .ok _ =>
    match validateMatrixID roomID "room" with
    | .error m => (.error (.plain ("invalid room ID: " ++ m)), [])
    | .ok _ =>
      match w.createAlias aliasName roomID with
      | .error e =>
        (.error (wrapErr e "failed to create room alias"),
         [.createAlias aliasName roomID])
      | .ok _ => (.ok (), [.createAlias aliasName roomID])

/-- `matrixClient.GetRoomAlias`: resolve the alias to a room ID. -/
def GetRoomAlias (w : Wire) (aliasName : String) :
    Except MatrixError RoomAlias × List WireCall :=
  match validateMatrixID aliasName "alias" with
  | .error m => (.error (.plain ("invalid alias: " ++ m)), [])
  | .ok _ =>
    match w.resolveAlias aliasName with
    | .error e =>
      (.error (wrapErr e "failed to resolve alias"), [.resolveAlias aliasName])
    | .ok rid => (.ok { aliasName := aliasName, roomID := rid }, [.resolveAlias aliasName])

/-- `matrixClient.DeleteRoomAlias`. -/
def DeleteRoomAlias (w : Wire) (aliasName : String) :
    Except MatrixError Unit × List WireCall :=
  match validateMatrixID aliasName "alias" with
  | .error m => (.error (.plain ("invalid alias: " ++ m)), [])
  | .ok _ =>
    match w.deleteAlias aliasName with
    | .error e =>
      (.error (wrapErr e "failed to delete room alias"), [.deleteAlias aliasName])
    | .ok _ => (.ok (), [.deleteAlias aliasName])

/-! ## Declarative API types (`apis/*/v1alpha1`)

`Parameters` optional fields (`*T` with `omitempty`) are `Option`;
required fields are plain values. -/

/-- `v1alpha1.ExternalID` (user API): `Validated` is a pointer. -/
structure ExternalIDParam where
  medium : String := ""
  address : String := ""
  validated : Option Bool := none
deriving DecidableEq, Repr

/-- `v1alpha1.UserParameters`. -/
structure UserParameters where
  userID : Option String := none
  localpart : Option String := none
  password : Option String := none
  displayName : Option String := none
  avatarURL : Option String := none
  admin : Option Bool := none
  deactivated : Option Bool := none
  userType : Option String := none
  externalIDs : List ExternalIDParam := []
  expireTime : Option GoTime := none
deriving DecidableEq, Repr

/-- `v1alpha1.Device` (observation side). -/
structure DeviceObs where
  deviceID : String := ""
  displayName : String := ""
  lastSeenIP : String := ""
  lastSeenTime : Option GoTime := none
deriving DecidableEq, Repr

/-- `v1alpha1.UserObservation`. -/
structure UserObservation where
  userID : String := ""
  displayName : String := ""
  avatarURL : String := ""
  admin : Bool := false
  deactivated : Bool := false
  userType : String := ""
  creationTime : Option GoTime := none
  lastSeenTime : Option GoTime := none
  externalIDs : List ExternalIDParam := []
  devices : List DeviceObs := []
deriving DecidableEq, Repr

/-- `v1alpha1.RoomParameters` (all fields optional). -/
structure RoomParameters where
  name : Option String := none
  topic : Option String := none
  aliasName : Option String := none
  preset : Option String := none
  visibility : Option String := none
  roomVersion : Option String := none
  creationContent : Option String := none
  initialState : List StateEvent := []
  invite : List String := []
  powerLevelOverrides : Option PowerLevelContent := none
  guestAccess : Option String := none
  historyVisibility : Option String := none
  joinRules : Option String := none
  encryptionEnabled : Option Bool := none
  avatarURL : Option String := none
deriving DecidableEq, Repr

/-- `v1alpha1.RoomObservation`. -/
structure RoomObservation where
  roomID : String := ""
  name : String := ""
  topic : String := ""
  aliasName : String := ""
  avatarURL : String := ""
  creator : String := ""
  creationTime : Option GoTime := none
  roomVersion : String := ""
  joinedMembers : Int := 0
  invitedMembers : Int := 0
  visibility : String := ""
  guestAccess : String := ""
  historyVisibility : String := ""
  joinRules : String := ""
  encryptionEnabled : Bool := false
  powerLevels : Option PowerLevelContent := none
  state : List StateEvent := []
deriving DecidableEq, Repr

/-- `v1alpha1.PowerLevelParameters`: a required `RoomID`, two map fields,
seven optional scalar levels. -/
structure PowerLevelParameters where
  roomID : String := ""
  users : GoMap := []
  events : GoMap := []
  eventsDefault : Option Int := none
  stateDefault : Option Int := none
  usersDefault : Option Int := none
  ban : Option Int := none
  kick : Option Int := none
  redact : Option Int := none
  invite : Option Int := none
deriving DecidableEq, Repr

/-- `v1alpha1.PowerLevelObservation` (plain ints, zero-defaulted). -/
structure PowerLevelObservation where
  roomID : String := ""
  users : GoMap := []
  events : GoMap := []
  eventsDefault : Int := 0
  stateDefault : Int := 0
  usersDefault : Int := 0
  ban : Int := 0
  kick : Int := 0
  redact : Int := 0
  invite : Int := 0
  lastModified : Option GoTime := none
deriving DecidableEq, Repr

/-- `v1alpha1.RoomAliasParameters`: `Alias` and `RoomID` required,
`SetAsCanonical`/`AltAliases` optional. -/
structure RoomAliasParameters where
  aliasName : String := ""
  roomID : String := ""
  setAsCanonical : Option Bool := none
  altAliases : List String := []
deriving DecidableEq, Repr

/-- `v1alpha1.RoomAliasObservation`. -/
structure RoomAliasObservation where
  aliasName : String := ""
  roomID : String := ""
  isCanonical : Bool := false
  isPublished : Bool := false
  creationTime : Option GoTime := none
  servers : List String := []
deriving DecidableEq, Repr

/-! ## Managed objects

Each custom resource is its annotation map (the external identifier lives
under the `crossplane.io/external-name` key), its desired `Parameters`, and
its status (`AtProvider` observation plus the Available condition the
reconcilers set). -/

/-- `resource.AnnotationKeyExternalName`. -/
def extNameKey : String := "crossplane.io/external-name"

/-- String-map lookup (Go `map[string]string` indexing, `Option`-valued). -/
def lookupStr : List (String × String) → String → Option String
  | [], _ => none
  | (k', v) :: t, k => if k' == k then some v else lookupStr t k

/-- Go map indexing with the zero value: `m[k]` as used on annotation maps. -/
def getAnnotation (m : List (String × String)) (k : String) : String :=
  (lookupStr m k).getD ""

/-- `managed.ExternalObservation` (the two fields the reconcilers set). -/
structure ExternalObservation where
  resourceExists : Bool := false
  resourceUpToDate : Bool := false
deriving DecidableEq, Repr

/-- A `v1alpha1.Room` managed object. -/
structure RoomCR where
  annotations : List (String × String) := []
  forProvider : RoomParameters := {}
  atProvider : Option RoomObservation := none
  conditionAvailable : Bool := false
deriving DecidableEq, Repr

/-- A `v1alpha1.User` managed object. -/
structure UserCR where
  annotations : List (String × String) := []
  forProvider : UserParameters := {}
  atProvider : Option UserObservation := none
  conditionAvailable : Bool := false
deriving DecidableEq, Repr

/-- A `v1alpha1.PowerLevel` managed object. -/
structure PowerLevelCR where
  annotations : List (String × String) := []
  forProvider : PowerLevelParameters := {}
  atProvider : Option PowerLevelObservation := none
  conditionAvailable : Bool := false
deriving DecidableEq, Repr

/-- A `v1alpha1.RoomAlias` managed object. -/
structure RoomAliasCR where
  annotations : List (String × String) := []
  forProvider : RoomAliasParameters := {}
  atProvider : Option RoomAliasObservation := none
  conditionAvailable : Bool := false
deriving DecidableEq, Repr

/-! ## Mappers and equality checks -/

/-- `if ptr != nil && *ptr != got { return false }`: the per-field mismatch
test shared by the `isXUpToDate` helpers. -/
def optMismatch {α : Type} [BEq α] (want : Option α) (got : α) : Bool :=
  match want with
  | some v => v != got
  | none => false

/-- The both-pointers-non-nil mismatch test used for `PowerLevel` scalar
default levels. -/
def optBothMismatch (want got : Option Int) : Bool :=
  match want, got with
  | some a, some b => a != b
  | _, _ => false

/-- `generateUserSpec` (user controller). -/
def generateUserSpec (p : UserParameters) : UserSpec :=
  { userID := p.userID.getD ""
    localpart := p.localpart.getD ""
    password := p.password.getD ""
    displayName := p.displayName.getD ""
    avatarURL := p.avatarURL.getD ""
    admin := p.admin.getD false
    deactivated := p.deactivated.getD false
    userType := p.userType.getD ""
    externalIDs := p.externalIDs.map fun extID =>
      { medium := extID.medium, address := extID.address,
        validated := extID.validated.getD false }
    expireTime := p.expireTime }

/-- `generateUserObservation` (user controller). -/
def generateUserObservation (user : User) : UserObservation :=
  { userID := user.userID
    displayName := user.displayName
    avatarURL := user.avatarURL
    admin := user.admin
    deactivated := user.deactivated
    userType := user.userType
    creationTime := user.creationTime
    lastSeenTime := user.lastSeenTime
    externalIDs := user.externalIDs.map fun extID =>
      { medium := extID.medium, address := extID.address,
        validated := some extID.validated }
    devices := user.devices.map fun device =>
      { deviceID := device.deviceID, displayName := device.displayName,
        lastSeenIP := device.lastSeenIP, lastSeenTime := device.lastSeenTime } }

/-- `isUserUpToDate` (user controller). -/
def isUserUpToDate (p : UserParameters) (user : User) : Bool :=
  if optMismatch p.displayName user.displayName then false
  else if optMismatch p.avatarURL user.avatarURL then false
  else if optMismatch p.admin user.admin then false
  else if optMismatch p.deactivated user.deactivated then false
  else if optMismatch p.userType user.userType then false
  else true

/-- `generateRoomSpec` (room controller). -/
def generateRoomSpec (p : RoomParameters) : RoomSpec :=
  { name := p.name.getD ""
    topic := p.topic.getD ""
    aliasName := p.aliasName.getD ""
    preset := p.preset.getD ""
    visibility := p.visibility.getD ""
    roomVersion := p.roomVersion.getD ""
    creationContent := p.creationContent
    invite := p.invite
    initialState := p.initialState.map fun state =>
      { type := state.type, stateKey := state.stateKey, content := state.content }
    powerLevelOverrides := p.powerLevelOverrides.map fun pl =>
      { users := pl.users, events := pl.events,
        eventsDefault := pl.eventsDefault, stateDefault := pl.stateDefault,
        usersDefault := pl.usersDefault, ban := pl.ban, kick := pl.kick,
        redact := pl.redact, invite := pl.invite }
    guestAccess := p.guestAccess.getD ""
    historyVisibility := p.historyVisibility.getD ""
    joinRules := p.joinRules.getD ""
    encryptionEnabled := p.encryptionEnabled.getD false
    avatarURL := p.avatarURL.getD "" }

/-- `generateRoomObservation` (room controller). -/
def generateRoomObservation (room : Room) : RoomObservation :=
  { roomID := room.roomID
    name := room.name
    topic := room.topic
    aliasName := room.aliasName
    avatarURL := room.avatarURL
    creator := room.creator
    roomVersion := room.roomVersion
    joinedMembers := room.joinedMembers
    invitedMembers := room.invitedMembers
    visibility := room.visibility
    guestAccess := room.guestAccess
    historyVisibility := room.historyVisibility
    joinRules := room.joinRules
    encryptionEnabled := room.encryptionEnabled
    creationTime := room.creationTime
    state := room.state.map fun state =>
      { type := state.type, stateKey := state.stateKey, content := state.content }
    powerLevels := room.powerLevels.map fun pl =>
      { users := pl.users, events := pl.events,
        eventsDefault := pl.eventsDefault, stateDefault := pl.stateDefault,
        usersDefault := pl.usersDefault, ban := pl.ban, kick := pl.kick,
        redact := pl.redact, invite := pl.invite } }

/-- `isRoomUpToDate` (room controller): eight pointer-guarded field
comparisons. -/
def isRoomUpToDate (p : RoomParameters) (room : Room) : Bool :=
  if optMismatch p.name room.name then false
  else if optMismatch p.topic room.topic then false
  else if optMismatch p.aliasName room.aliasName then false
  else if optMismatch p.guestAccess room.guestAccess then false
  else if optMismatch p.historyVisibility room.historyVisibility then false
  else if optMismatch p.joinRules room.joinRules then false
  else if optMismatch p.encryptionEnabled room.encryptionEnabled then false
  else if optMismatch p.avatarURL room.avatarURL then false
  else true

/-- `generatePowerLevelSpec` (powerlevel controller). -/
def generatePowerLevelSpec (p : PowerLevelParameters) : PowerLevelSpec :=
  { roomID := p.roomID
    powerLevels :=
      { users := p.users
        events := p.events
        eventsDefault := p.eventsDefault
        stateDefault := p.stateDefault
        usersDefault := p.usersDefault
        ban := p.ban
        kick := p.kick
        redact := p.redact
        invite := p.invite } }

/-- `generatePowerLevelObservation` (powerlevel controller); `now` models
`time.Now()`. -/
def generatePowerLevelObservation (roomID : String) (powerLevels : PowerLevelContent)
    (now : GoTime) : PowerLevelObservation :=
  { roomID := roomID
    users := powerLevels.users
    events := powerLevels.events
    eventsDefault := getIntValue powerLevels.eventsDefault 0
    stateDefault := getIntValue powerLevels.stateDefault 0
    usersDefault := getIntValue powerLevels.usersDefault 0
    ban := getIntValue powerLevels.ban 0
    kick := getIntValue powerLevels.kick 0
    redact := getIntValue powerLevels.redact 0
    invite := getIntValue powerLevels.invite 0
    lastModified := some now }

/-- `isPowerLevelUpToDate` (powerlevel controller): map cardinality plus
per-key equality on both maps, then both-pointers-non-nil comparisons on
the seven scalar levels. -/
def isPowerLevelUpToDate (p : PowerLevelParameters)
    (powerLevels : PowerLevelContent) : Bool :=
  if p.users.length ≠ powerLevels.users.length then false
  else if !(p.users.all fun kv =>
      match lookupGo powerLevels.users kv.1 with
      | some actualLevel => actualLevel == kv.2
      | none => false) then false
  else if p.events.length ≠ powerLevels.events.length then false
  else if !(p.events.all fun kv =>
      match lookupGo powerLevels.events kv.1 with
      | some actualLevel => actualLevel == kv.2
      | none => false) then false
  else if optBothMismatch p.eventsDefault powerLevels.eventsDefault then false
  else if optBothMismatch p.stateDefault powerLevels.stateDefault then false
  else if optBothMismatch p.usersDefault powerLevels.usersDefault then false
  else if optBothMismatch p.ban powerLevels.ban then false
  else if optBothMismatch p.kick powerLevels.kick then false
  else if optBothMismatch p.redact powerLevels.redact then false
  else if optBothMismatch p.invite powerLevels.invite then false
  else true

/-- `generateRoomAliasObservation` (roomalias controller); `now` models
`time.Now()`. -/
def generateRoomAliasObservation (roomAlias : RoomAlias) (now : GoTime) :
    RoomAliasObservation :=
  { aliasName := roomAlias.aliasName
    roomID := roomAlias.roomID
    isCanonical := false
    isPublished := true
    creationTime := some now
    servers := [] }

/-- `isRoomAliasUpToDate` (roomalias controller): compares the required
`RoomID` field. -/
def isRoomAliasUpToDate (p : RoomAliasParameters) (roomAlias : RoomAlias) : Bool :=
  if p.roomID != roomAlias.roomID then false
  else true

/-! ## Reconcilers -/

/-- Room `external.Observe`. -/
def roomObserve (w : Wire) (admin : Bool) (cr : RoomCR) :
    Except MatrixError ExternalObservation × RoomCR × List WireCall :=
  let roomID := getAnnotation cr.annotations extNameKey
  if roomID == "" then
    (.ok { resourceExists := false }, cr, [])
  else
    match GetRoom w admin roomID with
    | (.error e, tr) =>
      if IsNotFound (some e) then (.ok { resourceExists := false }, cr, tr)
      else (.error (wrapErr e "cannot get Matrix room"), cr, tr)
    | (.ok room, tr) =>
      (.ok { resourceExists := true,
             resourceUpToDate := isRoomUpToDate cr.forProvider room },
       { cr with atProvider := some (generateRoomObservation room),
                 conditionAvailable := true },
       tr)

/-- Room `external.Create`: on success the object's annotation map is
REPLACED by a singleton holding the external name (`SetAnnotations` with a
fresh map); the result models `ExternalCreation.ExternalNameAssigned`. -/
def roomCreate (w : Wire) (admin : Bool) (cr : RoomCR) :
    Except MatrixError Bool × RoomCR × List WireCall :=
  let roomSpec := generateRoomSpec cr.forProvider
  match CreateRoom w admin roomSpec with
  | (.error e, tr) => (.error (wrapErr e "cannot create Matrix room"), cr, tr)
  | (.ok room, tr) =>
    (.ok true, { cr with annotations := [(extNameKey, room.roomID)] }, tr)

/-- User `external.Observe`. -/
def userObserve (w : Wire) (admin : Bool) (cr : UserCR) :
    Except MatrixError ExternalObservation × UserCR × List WireCall :=
  let userID := getAnnotation cr.annotations extNameKey
  if userID == "" then
    (.ok { resourceExists := false }, cr, [])
  else
    match GetUser w admin userID with
    | (.error e, tr) =>
      if IsNotFound (some e) then (.ok { resourceExists := false }, cr, tr)
      else (.error (wrapErr e "cannot get Matrix user"), cr, tr)
    | (.ok user, tr) =>
      (.ok { resourceExists := true,
             resourceUpToDate := isUserUpToDate cr.forProvider user },
       { cr with atProvider := some (generateUserObservation user),
                 conditionAvailable := true },
       tr)

/-- PowerLevel `external.Observe`: the identity is the spec's `RoomID`;
no external-name check is made before calling the wire client. -/
def plObserve (w : Wire) (cr : PowerLevelCR) (now : GoTime) :
    Except MatrixError ExternalObservation × PowerLevelCR × List WireCall :=
  let roomID := cr.forProvider.roomID
  match GetPowerLevels w roomID with
  | (.error e, tr) =>
    if IsNotFound (some e) then (.ok { resourceExists := false }, cr, tr)
    else (.error (wrapErr e "cannot get Matrix power levels"), cr, tr)
  | (.ok powerLevels, tr) =>
    (.ok { resourceExists := true,
           resourceUpToDate := isPowerLevelUpToDate cr.forProvider powerLevels },
     { cr with atProvider := some (generatePowerLevelObservation roomID powerLevels now),
               conditionAvailable := true },
     tr)

/-- RoomAlias `external.Observe`: the identity is the spec's `Alias`;
no external-name check is made before calling the wire client. -/
def raObserve (w : Wire) (cr : RoomAliasCR) (now : GoTime) :
    Except MatrixError ExternalObservation × RoomAliasCR × List WireCall :=
  let aliasName := cr.forProvider.aliasName
  match GetRoomAlias w aliasName with
  | (.error e, tr) =>
    if IsNotFound (some e) then (.ok { resourceExists := false }, cr, tr)
    else (.error (wrapErr e "cannot get Matrix room alias"), cr, tr)
  | (.ok roomAlias, tr) =>
    (.ok { resourceExists := true,
           resourceUpToDate := isRoomAliasUpToDate cr.forProvider roomAlias },
     { cr with atProvider := some (generateRoomAliasObservation roomAlias now),
               conditionAvailable := true },
     tr)

/-- RoomAlias `external.Update`: unconditional delete of the desired alias
(a not-found delete error is tolerated), then create binding the alias to
the desired room ID. -/
def raUpdate (w : Wire) (cr : RoomAliasCR) :
    Except MatrixError Unit × List WireCall :=
  let aliasName := cr.forProvider.aliasName
  let roomID := cr.forProvider.roomID
  let createStep := fun (dtr : List WireCall) =>
    match CreateRoomAlias w aliasName roomID with
    | (.error e, ctr) =>
      (.error (wrapErr e "cannot create Matrix room alias"), dtr ++ ctr)
    | (.ok _, ctr) => (.ok (), dtr ++ ctr)
  match DeleteRoomAlias w aliasName with
  | (.error e, dtr) =>
    if IsNotFound (some e) then createStep dtr
    else (.error (wrapErr e "cannot delete Matrix room alias"), dtr)
  | (.ok _, dtr) => createStep dtr

/-! ## Specification-side definitions

These follow the SPEC's wording (not the source) and exist to be compared
with the source-derived definitions above. -/

/-- Did an `Except` computation succeed? -/
def isOkB {ε α : Type} : Except ε α → Bool
  | .ok _ => true
  | .error _ => false

/-- The spec's bit-exact identifier pattern `^S[^:]+:[^:]+$` for sigil `S`:
the sigil, a NON-EMPTY colon-free local part, one colon, a NON-EMPTY
colon-free domain. -/
def specSigilPattern (sigil : Char) (s : String) : Bool :=
  match s.toList with
  | [] => false
  | c :: rest =>
    c == sigil &&
    (match splitChars ':' rest with
     | [localPart, domain] => !localPart.isEmpty && !domain.isEmpty
     | _ => false)

/-- The pattern the source actually enforces: the sigil and exactly one
colon in the remainder, with POSSIBLY EMPTY local part and domain
(`^S[^:]*:[^:]*$`). -/
def relaxedSigilPattern (sigil : Char) (s : String) : Bool :=
  match s.toList with
  | [] => false
  | c :: rest => c == sigil && (splitChars ':' rest).length == 2

/-- The spec's not-found rule read as a plain three-way disjunction over
any error: canonical code M_NOT_FOUND, or message contains "404", or
message contains "not found" case-insensitively. -/
def specNotFoundDisj : Option MatrixError → Bool
  | none => false
  | some err =>
    (match err with
     | .httpError respErrCode _ => respErrCode == some "M_NOT_FOUND"
     | .plain _ => false)
    || goContains err.message "404"
    || goContains (goToLower err.message) "not found"

/-- Every declared-optional field of `RoomParameters` is unset. -/
abbrev roomParamsAllUnset (p : RoomParameters) : Prop :=
  p.name = none ∧ p.topic = none ∧ p.aliasName = none ∧ p.preset = none ∧
  p.visibility = none ∧ p.roomVersion = none ∧ p.creationContent = none ∧
  p.initialState = [] ∧ p.invite = [] ∧ p.powerLevelOverrides = none ∧
  p.guestAccess = none ∧ p.historyVisibility = none ∧ p.joinRules = none ∧
  p.encryptionEnabled = none ∧ p.avatarURL = none

/-- Every declared-optional field of `PowerLevelParameters` is unset
(empty maps, nil pointers); only the required `RoomID` may be set. -/
abbrev plParamsAllUnset (p : PowerLevelParameters) : Prop :=
  p.users = [] ∧ p.events = [] ∧ p.eventsDefault = none ∧
  p.stateDefault = none ∧ p.usersDefault = none ∧ p.ban = none ∧
  p.kick = none ∧ p.redact = none ∧ p.invite = none

/-- Every declared-optional field of `RoomAliasParameters` is unset;
`Alias` and `RoomID` are required and remain. -/
abbrev raOptionalParamsUnset (p : RoomAliasParameters) : Prop :=
  p.setAsCanonical = none ∧ p.altAliases = []

/-- The spec's end-to-end room-creation scenario:
`{name: "Team Discussion", preset: "private_chat", encryptionEnabled: true,
invite: ["@bob:x.com"]}`. -/
def scenarioRoomSpec : RoomSpec :=
  { name := "Team Discussion"
    preset := "private_chat"
    encryptionEnabled := true
    invite := ["@bob:x.com"] }

/-- The `EncryptionEnabled` flag of a room result, when it succeeded. -/
def resultEncryptionFlag : Except MatrixError Room → Option Bool
  | .ok room => some room.encryptionEnabled
  | .error _ => none

/-- A concrete homeserver behaviour used to evaluate the embedded client
at specific inputs: every operation succeeds with canned data, and the
admin room-details endpoint is not available. -/
def defaultWire : Wire where
  adminCreateUser := fun spec => .ok { userID := spec.userID }
  adminGetUser := fun userID => .ok { userID := userID }
  adminUpdateUser := fun userID _ => .ok { userID := userID }
  adminDeactivateUser := fun _ => .ok ()
  getProfile := fun _ => .ok {}
  setDisplayName := fun _ => .ok ()
  setAvatarURL := fun _ => .ok ()
  parseContentURI := fun _ => .ok ()
  createRoom := fun _ => .ok "!r:x.com"
  sendState := fun _ _ => .ok ()
  adminGetRoomDetails := fun _ =>
    .error (.plain "admin API request failed with status 404: ")
  adminDeleteRoom := fun _ => .ok ()
  readName := fun _ => .ok ""
  readTopic := fun _ => .ok ""
  readAlias := fun _ => .ok ""
  readAvatar := fun _ => .ok ""
  readPowerLevels := fun _ => .ok {}
  createAlias := fun _ _ => .ok ()
  resolveAlias := fun _ => .ok "!r:x.com"
  deleteAlias := fun _ => .ok ()

/-! ## Helper lemmas -/

/-- `splitChars` never returns the empty list of fields. -/
theorem splitChars_ne_nil (sep : Char) (l : List Char) : splitChars sep l ≠ [] := by
  cases l with
  | nil => simp [splitChars]
  | cons c cs =>
    rcases hr : splitChars sep cs with _ | ⟨hd, tl⟩ <;>
      by_cases h : (c == sep) = true <;>
        simp [splitChars, h, hr]

/-- `splitChars` yields one more field than there are separators. -/
theorem splitChars_length (sep : Char) (l : List Char) :
    (splitChars sep l).length = (l.filter (· == sep)).length + 1 := by
  induction l with
  | nil => simp [splitChars]
  | cons c cs ih =>
    rcases hr : splitChars sep cs with _ | ⟨hd, tl⟩
    · exact absurd hr (splitChars_ne_nil sep cs)
    · rw [hr] at ih
      by_cases h : (c == sep) = true
      · simp only [splitChars, hr, h, if_pos, List.filter_cons, List.length_cons]
        simpa using ih
      · have h' : (c == sep) = false := by simpa using h
        simp only [splitChars, hr, h', List.filter_cons, List.length_cons,
          Bool.false_eq_true, if_false]
        simpa [h'] using ih

/-- In a key-distinct association list, looking up any member's key finds
its value. -/
theorem lookupGo_self (l : GoMap) (hnd : (l.map Prod.fst).Nodup) :
    ∀ kv ∈ l, lookupGo l kv.1 = some kv.2 := by
  induction l with
  | nil => intro kv h; cases h
  | cons hd tl ih =>
    intro kv hkv
    rw [List.map_cons, List.nodup_cons] at hnd
    rcases List.mem_cons.mp hkv with h | h
    · subst h
      simp [lookupGo]
    · have hne : hd.1 ≠ kv.1 := fun he =>
        hnd.1 (he ▸ List.mem_map_of_mem Prod.fst h)
      have hbe : (hd.1 == kv.1) = false := by simpa using hne
      simp only [lookupGo, hbe, Bool.false_eq_true, if_false]
      exact ih hnd.2 kv h

/-- `optBothMismatch` never fires when the observed pointer is nil. -/
theorem optBothMismatch_none_right (x : Option Int) :
    optBothMismatch x none = false := by
  cases x <;> rfl

/-- `optBothMismatch` never fires when the desired pointer is nil. -/
theorem optBothMismatch_none_left (y : Option Int) :
    optBothMismatch none y = false := by
  cases y <;> rfl

/-! ## Claim theorems -/

/-- C4: `isPowerLevelUpToDate` returns false whenever the desired and
observed `Users` maps (or `Events` maps) differ in key count, regardless
of the values at shared keys. -/
theorem powerlevel_map_count_mismatch_false (p : PowerLevelParameters)
    (o : PowerLevelContent)
    (h : p.users.length ≠ o.users.length ∨ p.events.length ≠ o.events.length) :
    isPowerLevelUpToDate p o = false := by
  unfold isPowerLevelUpToDate
  rcases h with h | h
  · simp [h]
  · split_ifs <;> simp_all

/-- C4 witness: a desired map of one user against an observed map of zero
users yields false. -/
theorem powerlevel_map_count_mismatch_false_witness :
    ({ roomID := "!r:x.com", users := [("@a:x.com", 100)] } :
        PowerLevelParameters).users.length ≠
      ({} : PowerLevelContent).users.length ∧
    isPowerLevelUpToDate
      { roomID := "!r:x.com", users := [("@a:x.com", 100)] } {} = false :=
  ⟨by decide, powerlevel_map_count_mismatch_false _ _ (Or.inl (by decide))⟩

/-- C10: each scalar default level of `isPowerLevelUpToDate` is compared
only when desired AND observed are both non-nil; with every observed
default absent the check can return true regardless of the desired
values (here: whenever the maps agree). -/
theorem powerlevel_defaults_skip_when_observed_absent
    (p : PowerLevelParameters) (o : PowerLevelContent)
    (hu : p.users = o.users) (he : p.events = o.events)
    (hnu : (p.users.map Prod.fst).Nodup) (hne : (p.events.map Prod.fst).Nodup)
    (h1 : o.eventsDefault = none) (h2 : o.stateDefault = none)
    (h3 : o.usersDefault = none) (h4 : o.ban = none) (h5 : o.kick = none)
    (h6 : o.redact = none) (h7 : o.invite = none) :
    isPowerLevelUpToDate p o = true := by
  have hnu' : (o.users.map Prod.fst).Nodup := hu ▸ hnu
  have hne' : (o.events.map Prod.fst).Nodup := he ▸ hne
  have husers : ∀ (a : String) (b : Int), (a, b) ∈ o.users →
      (match lookupGo o.users a with
       | some actualLevel => actualLevel == b
       | none => false) = true := by
    intro a b hab
    rw [lookupGo_self o.users hnu' ⟨a, b⟩ hab]
    simp
  have hevents : ∀ (a : String) (b : Int), (a, b) ∈ o.events →
      (match lookupGo o.events a with
       | some actualLevel => actualLevel == b
       | none => false) = true := by
    intro a b hab
    rw [lookupGo_self o.events hne' ⟨a, b⟩ hab]
    simp
  unfold isPowerLevelUpToDate
  simp [hu, he, h1, h2, h3, h4, h5, h6, h7,
    optBothMismatch_none_right, List.all_eq_true]
  exact ⟨husers, hevents⟩

/-- C10 witness: desired defaults all set, observed defaults all absent,
matching one-user map — the check returns true. -/
theorem powerlevel_defaults_skip_when_observed_absent_witness :
    isPowerLevelUpToDate
      { roomID := "!r:x.com", users := [("@a:x.com", 100)],
        eventsDefault := some 99, stateDefault := some 1,
        usersDefault := some 2, ban := some 3, kick := some 4,
        redact := some 5, invite := some 6 }
      { users := [("@a:x.com", 100)] } = true :=
  powerlevel_defaults_skip_when_observed_absent _ _ rfl rfl
    (by decide) (by decide) rfl rfl rfl rfl rfl rfl rfl

/-- C3 counterexample: with every optional field of the desired
`PowerLevelParameters` unset, `isPowerLevelUpToDate` is NOT vacuously
true — a non-empty observed user map makes it false. -/
theorem powerlevel_vacuous_unset_not_true :
    plParamsAllUnset ({ roomID := "!r:x.com" } : PowerLevelParameters) ∧
    isPowerLevelUpToDate { roomID := "!r:x.com" }
      { users := [("@a:x.com", 100)] } = false :=
  ⟨by decide, by decide⟩

/-- C3 amended: with every declared-optional field unset, `isRoomUpToDate`
is true regardless of the observed room; `isPowerLevelUpToDate` is true
exactly when the observed maps are also empty (the cardinality check always
applies); `isRoomAliasUpToDate` still compares the required `RoomID`. -/
theorem equality_checks_vacuous_amended :
    (∀ (p : RoomParameters) (room : Room), roomParamsAllUnset p →
        isRoomUpToDate p room = true) ∧
    (∀ (p : PowerLevelParameters) (o : PowerLevelContent), plParamsAllUnset p →
        isPowerLevelUpToDate p o = (o.users.isEmpty && o.events.isEmpty)) ∧
    (∀ (p : RoomAliasParameters) (ra : RoomAlias), raOptionalParamsUnset p →
        isRoomAliasUpToDate p ra = (p.roomID == ra.roomID)) := by
  refine ⟨?_, ?_, ?_⟩
  · intro p room hp
    obtain ⟨h1, h2, h3, _, _, _, _, _, _, _, h4, h5, h6, h7, h8⟩ := hp
    simp [isRoomUpToDate, optMismatch, h1, h2, h3, h4, h5, h6, h7, h8]
  · intro p o hp
    obtain ⟨h1, h2, h3, h4, h5, h6, h7, h8, h9⟩ := hp
    unfold isPowerLevelUpToDate
    rcases hou : o.users with _ | ⟨a, as⟩ <;>
      rcases hoe : o.events with _ | ⟨b, bs⟩ <;>
        simp [h1, h2, h3, h4, h5, h6, h7, h8, h9, optBothMismatch_none_left]
  · intro p ra _
    unfold isRoomAliasUpToDate
    by_cases h : p.roomID = ra.roomID <;> simp [h]

/-- C3 amended witness: concrete instances of all three equality checks at
fully-unset optional fields. -/
theorem equality_checks_vacuous_amended_witness :
    isRoomUpToDate {} { name := "Team Discussion", encryptionEnabled := true } = true ∧
    isPowerLevelUpToDate { roomID := "!r:x.com" }
      ({ users := [("@a:x.com", 100)] } : PowerLevelContent) =
      (([("@a:x.com", 100)] : GoMap).isEmpty && ([] : GoMap).isEmpty) ∧
    isRoomAliasUpToDate { aliasName := "#a:x.com", roomID := "!r:x.com" }
      { aliasName := "#a:x.com", roomID := "!other:x.com" } =
      ("!r:x.com" == "!other:x.com") :=
  ⟨equality_checks_vacuous_amended.1 _ _ (by decide),
   equality_checks_vacuous_amended.2.1 _ _ (by decide),
   equality_checks_vacuous_amended.2.2 _ _ (by decide)⟩

/-- C6 counterexample: a `mautrix.HTTPError` with no structured `RespError`
whose message plainly contains "404" and "not found" is NOT classified as
not-found by `IsNotFound` (the type-assertion branch returns early without
consulting the message), while the spec's three-way disjunction says it is. -/
theorem isNotFound_httpError_message_ignored :
    IsNotFound (some (.httpError none "HTTP 404: room not found")) = false ∧
    specNotFoundDisj (some (.httpError none "HTTP 404: room not found")) = true :=
  ⟨by decide, by decide⟩

/-- C6 amended: `IsNotFound` is false on nil; on a `mautrix.HTTPError` it
is true iff the structured code is `M_NOT_FOUND` (the message is never
consulted); on any other error it agrees exactly with the spec's textual
disjunction ("404" or case-insensitive "not found"); and whenever it
reports true the spec's disjunction also holds. -/
theorem isNotFound_characterization_amended :
    IsNotFound none = false ∧
    (∀ respErrCode msg, IsNotFound (some (.httpError respErrCode msg)) =
        (respErrCode == some "M_NOT_FOUND")) ∧
    (∀ msg, IsNotFound (some (.plain msg)) =
        specNotFoundDisj (some (.plain msg))) ∧
    (∀ e, IsNotFound (some e) = true → specNotFoundDisj (some e) = true) := by
  refine ⟨rfl, fun _ _ => rfl,
    fun msg => by simp [IsNotFound, specNotFoundDisj, MatrixError.message], ?_⟩
  intro e h
  cases e with
  | httpError respErrCode msg =>
    simp only [IsNotFound] at h
    simp [specNotFoundDisj, h]
  | plain msg =>
    simp only [IsNotFound] at h
    simp [specNotFoundDisj, MatrixError.message, h]

/-- C6 amended witness: the characterization applied to a concrete
`M_NOT_FOUND` error. -/
theorem isNotFound_characterization_amended_witness :
    specNotFoundDisj (some (.httpError (some "M_NOT_FOUND") "gone")) = true :=
  isNotFound_characterization_amended.2.2.2 _ (by decide)

/-- `validateMatrixID` for kind `user` equals the relaxed sigil pattern. -/
theorem validate_eq_relaxed_user (s : String) :
    isOkB (validateMatrixID s "user") = relaxedSigilPattern '@' s := by
  rcases hd : s.data with _ | ⟨c, rest⟩
  · have hsig : goHasSigil s '@' = false := by
      simp [goHasSigil, String.toList, hd]
    simp [validateMatrixID, hsig, relaxedSigilPattern, String.toList, hd, isOkB]
  · have hsig : goHasSigil s '@' = (c == '@') := by
      simp [goHasSigil, String.toList, hd]
    have hdrop : goDrop1 s = String.mk rest := by
      simp [goDrop1, String.toList, hd]
    have hsplit : (goSplit (goDrop1 s) ':').length = (splitChars ':' rest).length := by
      simp [goSplit, hdrop, String.toList]
    by_cases hc : (c == '@') = true
    · by_cases hlen : (splitChars ':' rest).length = 2 <;>
        simp [validateMatrixID, hsig, hc, hsplit, hlen, relaxedSigilPattern,
          String.toList, hd, isOkB]
    · have hc' : (c == '@') = false := by simpa using hc
      simp [validateMatrixID, hsig, hc', relaxedSigilPattern, String.toList, hd, isOkB]

/-- `validateMatrixID` for kind `room` equals the relaxed sigil pattern. -/
theorem validate_eq_relaxed_room (s : String) :
    isOkB (validateMatrixID s "room") = relaxedSigilPattern '!' s := by
  rcases hd : s.data with _ | ⟨c, rest⟩
  · have hsig : goHasSigil s '!' = false := by
      simp [goHasSigil, String.toList, hd]
    simp [validateMatrixID, hsig, relaxedSigilPattern, String.toList, hd, isOkB]
  · have hsig : goHasSigil s '!' = (c == '!') := by
      simp [goHasSigil, String.toList, hd]
    have hdrop : goDrop1 s = String.mk rest := by
      simp [goDrop1, String.toList, hd]
    have hsplit : (goSplit (goDrop1 s) ':').length = (splitChars ':' rest).length := by
      simp [goSplit, hdrop, String.toList]
    by_cases hc : (c == '!') = true
    · by_cases hlen : (splitChars ':' rest).length = 2 <;>
        simp [validateMatrixID, hsig, hc, hsplit, hlen, relaxedSigilPattern,
          String.toList, hd, isOkB]
    · have hc' : (c == '!') = false := by simpa using hc
      simp [validateMatrixID, hsig, hc', relaxedSigilPattern, String.toList, hd, isOkB]

/-- `validateMatrixID` for kind `alias` equals the relaxed sigil pattern. -/
theorem validate_eq_relaxed_alias (s : String) :
    isOkB (validateMatrixID s "alias") = relaxedSigilPattern '#' s := by
  rcases hd : s.data with _ | ⟨c, rest⟩
  · have hsig : goHasSigil s '#' = false := by
      simp [goHasSigil, String.toList, hd]
    simp [validateMatrixID, hsig, relaxedSigilPattern, String.toList, hd, isOkB]
  · have hsig : goHasSigil s '#' = (c == '#') := by
      simp [goHasSigil, String.toList, hd]
    have hdrop : goDrop1 s = String.mk rest := by
      simp [goDrop1, String.toList, hd]
    have hsplit : (goSplit (goDrop1 s) ':').length = (splitChars ':' rest).length := by
      simp [goSplit, hdrop, String.toList]
    by_cases hc : (c == '#') = true
    · by_cases hlen : (splitChars ':' rest).length = 2 <;>
        simp [validateMatrixID, hsig, hc, hsplit, hlen, relaxedSigilPattern,
          String.toList, hd, isOkB]
    · have hc' : (c == '#') = false := by simpa using hc
      simp [validateMatrixID, hsig, hc', relaxedSigilPattern, String.toList, hd, isOkB]

/-- C7 counterexample: `validateMatrixID` accepts `"@:x.com"`, whose local
part is empty, although the spec's bit-exact pattern `^@[^:]+:[^:]+$`
rejects it. -/
theorem validateMatrixID_accepts_empty_localpart :
    validateMatrixID "@:x.com" "user" = .ok () ∧
    specSigilPattern '@' "@:x.com" = false :=
  ⟨by decide, by decide⟩

/-- C7 amended: `validateMatrixID` accepts a string for kind
user/room/alias iff it starts with the kind's sigil and has exactly one
colon after it — the relaxed pattern `^S[^:]*:[^:]*$`, which unlike the
spec's pattern allows an empty local part and an empty domain. -/
theorem validateMatrixID_relaxed_pattern_amended (s : String) :
    (isOkB (validateMatrixID s "user") = relaxedSigilPattern '@' s) ∧
    (isOkB (validateMatrixID s "room") = relaxedSigilPattern '!' s) ∧
    (isOkB (validateMatrixID s "alias") = relaxedSigilPattern '#' s) :=
  ⟨validate_eq_relaxed_user s, validate_eq_relaxed_room s, validate_eq_relaxed_alias s⟩

/-- C7 amended witness: the equivalence applied to a concrete well-formed
user ID. -/
theorem validateMatrixID_relaxed_pattern_amended_witness :
    isOkB (validateMatrixID "@alice:example.com" "user") =
      relaxedSigilPattern '@' "@alice:example.com" :=
  (validateMatrixID_relaxed_pattern_amended "@alice:example.com").1

/-- C1 counterexample: `CreateUser`, given a user ID that fails the
sigil+domain rule, still issues the admin HTTP request when the admin
client is configured — no validation happens at all. -/
theorem createUser_invalid_id_issues_wire_call :
    isOkB (validateMatrixID "not-a-matrix-id" "user") = false ∧
    (CreateUser defaultWire true { userID := "not-a-matrix-id" }).2 =
      [.adminCreateUser { userID := "not-a-matrix-id" }] :=
  ⟨by decide, by decide⟩

/-- C1 amended: every identifier-taking wire operation EXCEPT `CreateUser`
short-circuits with a local validation error and an empty call trace on a
malformed identifier (for `DeactivateUser`/`DeleteRoom` only after the
admin-capability check, which otherwise returns the requires-admin error,
still with no wire call); `CreateUser` performs no validation and issues
the admin request whenever the admin client is configured. -/
theorem client_ops_validate_before_network_amended
    (w : Wire) (admin : Bool) (u r a m mr ma : String)
    (hu : validateMatrixID u "user" = .error m)
    (hr : validateMatrixID r "room" = .error mr)
    (ha : validateMatrixID a "alias" = .error ma) :
    GetUser w admin u = (.error (.plain ("invalid user ID: " ++ m)), []) ∧
    (∀ spec, UpdateUser w admin u spec =
        (.error (.plain ("invalid user ID: " ++ m)), [])) ∧
    DeactivateUser w true u = (.error (.plain ("invalid user ID: " ++ m)), []) ∧
    DeactivateUser w false u =
      (.error (.plain "user deactivation requires admin API access"), []) ∧
    GetRoom w admin r = (.error (.plain ("invalid room ID: " ++ mr)), []) ∧
    (∀ spec, UpdateRoom w admin r spec =
        (.error (.plain ("invalid room ID: " ++ mr)), [])) ∧
    DeleteRoom w true r = (.error (.plain ("invalid room ID: " ++ mr)), []) ∧
    DeleteRoom w false r =
      (.error (.plain "room deletion requires admin API access"), []) ∧
    (∀ pls, SetPowerLevels w r pls =
        (.error (.plain ("invalid room ID: " ++ mr)), [])) ∧
    GetPowerLevels w r = (.error (.plain ("invalid room ID: " ++ mr)), []) ∧
    (∀ rid, CreateRoomAlias w a rid =
        (.error (.plain ("invalid alias: " ++ ma)), [])) ∧
    (∀ a', validateMatrixID a' "alias" = .ok () →
        CreateRoomAlias w a' r =
          (.error (.plain ("invalid room ID: " ++ mr)), [])) ∧
    GetRoomAlias w a = (.error (.plain ("invalid alias: " ++ ma)), []) ∧
    DeleteRoomAlias w a = (.error (.plain ("invalid alias: " ++ ma)), []) ∧
    (∀ spec, CreateUser w true spec =
        (w.adminCreateUser spec, [.adminCreateUser spec])) ∧
    (∀ spec, CreateUser w false spec =
        (.error (.plain "user creation requires admin API access"), [])) :=
  ⟨by simp [GetUser, hu],
   fun spec => by simp [UpdateUser, hu],
   by simp [DeactivateUser, hu],
   by simp [DeactivateUser],
   by simp [GetRoom, hr],
   fun spec => by simp [UpdateRoom, hr],
   by simp [DeleteRoom, hr],
   by simp [DeleteRoom],
   fun pls => by simp [SetPowerLevels, hr],
   by simp [GetPowerLevels, hr],
   fun rid => by simp [CreateRoomAlias, ha],
   fun a' ha' => by simp [CreateRoomAlias, ha', hr],
   by simp [GetRoomAlias, ha],
   by simp [DeleteRoomAlias, ha],
   fun spec => by simp [CreateUser],
   fun spec => by simp [CreateUser]⟩

/-- C1 amended witness: a concrete malformed user ID is rejected by
`GetUser` with no wire call. -/
theorem client_ops_validate_before_network_amended_witness :
    GetUser defaultWire true "bad-user" =
      (.error (.plain ("invalid user ID: " ++ "user ID must start with @")), []) :=
  (client_ops_validate_before_network_amended defaultWire true "bad-user" "bad-room"
    "bad-alias" "user ID must start with @" "room ID must start with !"
    "room alias must start with #" (by decide) (by decide) (by decide)).1

/-- C2 counterexample: the PowerLevel reconciler's `Observe`, on an object
with NO external identifier recorded, still issues a wire call (the
power-levels state read keyed by the spec's room ID) and can even report
`exists=true`. -/
theorem powerlevel_observe_calls_wire_without_external_name :
    getAnnotation ({ forProvider := { roomID := "!r:x.com" } } :
        PowerLevelCR).annotations extNameKey = "" ∧
    (plObserve defaultWire { forProvider := { roomID := "!r:x.com" } } 0).2.2 =
      [.stateRead "!r:x.com" evPowerLevels] ∧
    (plObserve defaultWire { forProvider := { roomID := "!r:x.com" } } 0).1 =
      .ok { resourceExists := true, resourceUpToDate := true } :=
  ⟨by decide, by decide, by decide⟩

/-- C2 amended: Room and User `Observe` return `exists=false` without any
wire call when no external identifier is recorded; PowerLevel and
RoomAlias `Observe` identify the resource by spec fields and always issue
their wire read (whenever the spec identifier passes validation),
external-name annotation or not. -/
theorem observe_no_external_name_amended :
    (∀ (w : Wire) (admin : Bool) (cr : RoomCR),
        getAnnotation cr.annotations extNameKey = "" →
        roomObserve w admin cr = (.ok { resourceExists := false }, cr, [])) ∧
    (∀ (w : Wire) (admin : Bool) (cr : UserCR),
        getAnnotation cr.annotations extNameKey = "" →
        userObserve w admin cr = (.ok { resourceExists := false }, cr, [])) ∧
    (∀ (w : Wire) (cr : PowerLevelCR) (now : GoTime),
        validateMatrixID cr.forProvider.roomID "room" = .ok () →
        (plObserve w cr now).2.2 =
          [.stateRead cr.forProvider.roomID evPowerLevels]) ∧
    (∀ (w : Wire) (cr : RoomAliasCR) (now : GoTime),
        validateMatrixID cr.forProvider.aliasName "alias" = .ok () →
        (raObserve w cr now).2.2 = [.resolveAlias cr.forProvider.aliasName]) := by
  refine ⟨?_, ?_, ?_, ?_⟩
  · intro w admin cr h
    simp [roomObserve, h]
  · intro w admin cr h
    simp [userObserve, h]
  · intro w cr now h
    rcases hres : w.readPowerLevels cr.forProvider.roomID with e | pc <;>
      simp [plObserve, GetPowerLevels, h, hres, apply_ite]
  · intro w cr now h
    rcases hres : w.resolveAlias cr.forProvider.aliasName with e | rid <;>
      simp [raObserve, GetRoomAlias, h, hres, apply_ite]

/-- C2 amended witness: all four `Observe` behaviours at concrete
objects. -/
theorem observe_no_external_name_amended_witness :
    roomObserve defaultWire false { annotations := [("app", "demo")] } =
      (.ok { resourceExists := false }, { annotations := [("app", "demo")] }, []) ∧
    userObserve defaultWire false {} = (.ok { resourceExists := false }, {}, []) ∧
    (plObserve defaultWire { forProvider := { roomID := "!r:x.com" } } 0).2.2 =
      [.stateRead "!r:x.com" evPowerLevels] ∧
    (raObserve defaultWire { forProvider := { aliasName := "#a:x.com" } } 0).2.2 =
      [.resolveAlias "#a:x.com"] :=
  ⟨observe_no_external_name_amended.1 _ _ _ (by decide),
   observe_no_external_name_amended.2.1 _ _ _ (by decide),
   observe_no_external_name_amended.2.2.1 _ _ 0 (by decide),
   observe_no_external_name_amended.2.2.2 _ _ 0 (by decide)⟩

/-- How `raUpdate` wraps the create step's outcome. -/
def raWrapCreate : Except MatrixError Unit → Except MatrixError Unit
  | .ok _ => .ok ()
  | .error e => .error (wrapErr e "cannot create Matrix room alias")

/-- `DeleteRoomAlias` issues at most its single delete call. -/
theorem deleteRoomAlias_trace (w : Wire) (a : String) :
    (DeleteRoomAlias w a).2 = [] ∨ (DeleteRoomAlias w a).2 = [.deleteAlias a] := by
  cases hv : validateMatrixID a "alias" with
  | error m => simp [DeleteRoomAlias, hv]
  | ok _ =>
    cases hd : w.deleteAlias a with
    | error e => simp [DeleteRoomAlias, hv, hd]
    | ok _ => simp [DeleteRoomAlias, hv, hd]

/-- C5: RoomAlias `Update` always runs the delete first; a delete error not
classified not-found aborts with that error and no create call ever
happens; a successful delete or a not-found delete error proceeds to the
create, whose calls follow the delete's in the trace. -/
theorem roomalias_update_delete_then_create (w : Wire) (cr : RoomAliasCR) :
    (∀ e dtr, DeleteRoomAlias w cr.forProvider.aliasName = (.error e, dtr) →
        IsNotFound (some e) = false →
        raUpdate w cr = (.error (wrapErr e "cannot delete Matrix room alias"), dtr) ∧
        WireCall.createAlias cr.forProvider.aliasName cr.forProvider.roomID ∉
          (raUpdate w cr).2) ∧
    (∀ dtr, DeleteRoomAlias w cr.forProvider.aliasName = (.ok (), dtr) →
        raUpdate w cr =
          (raWrapCreate
             (CreateRoomAlias w cr.forProvider.aliasName cr.forProvider.roomID).1,
           dtr ++ (CreateRoomAlias w cr.forProvider.aliasName cr.forProvider.roomID).2)) ∧
    (∀ e dtr, DeleteRoomAlias w cr.forProvider.aliasName = (.error e, dtr) →
        IsNotFound (some e) = true →
        raUpdate w cr =
          (raWrapCreate
             (CreateRoomAlias w cr.forProvider.aliasName cr.forProvider.roomID).1,
           dtr ++ (CreateRoomAlias w cr.forProvider.aliasName cr.forProvider.roomID).2)) ∧
    (∃ rest, (raUpdate w cr).2 =
        (DeleteRoomAlias w cr.forProvider.aliasName).2 ++ rest) := by
  refine ⟨?_, ?_, ?_, ?_⟩
  · intro e dtr hdel hnf
    have hupd : raUpdate w cr =
        (.error (wrapErr e "cannot delete Matrix room alias"), dtr) := by
      simp [raUpdate, hdel, hnf]
    refine ⟨hupd, ?_⟩
    rw [hupd]
    have hdtr : (DeleteRoomAlias w cr.forProvider.aliasName).2 = dtr := by rw [hdel]
    rcases deleteRoomAlias_trace w cr.forProvider.aliasName with h | h <;>
      rw [hdtr] at h <;> subst h <;> simp
  · intro dtr hdel
    rcases hc : CreateRoomAlias w cr.forProvider.aliasName cr.forProvider.roomID
      with ⟨cres, ctr⟩
    cases cres <;> simp [raUpdate, hdel, hc, raWrapCreate]
  · intro e dtr hdel hnf
    rcases hc : CreateRoomAlias w cr.forProvider.aliasName cr.forProvider.roomID
      with ⟨cres, ctr⟩
    cases cres <;> simp [raUpdate, hdel, hnf, hc, raWrapCreate]
  · rcases hdel : DeleteRoomAlias w cr.forProvider.aliasName with ⟨dres, dtr⟩
    cases dres with
    | ok _ =>
      rcases hc : CreateRoomAlias w cr.forProvider.aliasName cr.forProvider.roomID
        with ⟨cres, ctr⟩
      exact ⟨ctr, by cases cres <;> simp [raUpdate, hdel, hc]⟩
    | error e =>
      cases hnf : IsNotFound (some e) with
      | true =>
        rcases hc : CreateRoomAlias w cr.forProvider.aliasName cr.forProvider.roomID
          with ⟨cres, ctr⟩
        exact ⟨ctr, by cases cres <;> simp [raUpdate, hdel, hnf, hc]⟩
      | false =>
        exact ⟨[], by simp [raUpdate, hdel, hnf]⟩

/-- C5 witness: on a server where the delete succeeds, the update is the
delete call followed by the create. -/
theorem roomalias_update_delete_then_create_witness :
    raUpdate defaultWire
        { forProvider := { aliasName := "#a:x.com", roomID := "!r:x.com" } } =
      (raWrapCreate (CreateRoomAlias defaultWire "#a:x.com" "!r:x.com").1,
       [WireCall.deleteAlias "#a:x.com"] ++
         (CreateRoomAlias defaultWire "#a:x.com" "!r:x.com").2) :=
  (roomalias_update_delete_then_create defaultWire _).2.1 _ (by decide)

/-- C9: on success, Room `Create` replaces the object's entire annotation
map with the singleton external-name entry: every other key is absent
afterwards. -/
theorem room_create_replaces_annotations (w : Wire) (admin : Bool) (cr : RoomCR)
    (room : Room) (tr : List WireCall)
    (h : CreateRoom w admin (generateRoomSpec cr.forProvider) = (.ok room, tr)) :
    (roomCreate w admin cr).1 = .ok true ∧
    (roomCreate w admin cr).2.1.annotations = [(extNameKey, room.roomID)] ∧
    (∀ k, k ≠ extNameKey →
        lookupStr (roomCreate w admin cr).2.1.annotations k = none) := by
  have hrc : roomCreate w admin cr =
      (.ok true, { cr with annotations := [(extNameKey, room.roomID)] }, tr) := by
    simp [roomCreate, h]
  refine ⟨by rw [hrc], by rw [hrc], ?_⟩
  intro k hk
  rw [hrc]
  have hbe : (extNameKey == k) = false := by
    simpa using (Ne.symm hk)
  simp [lookupStr, hbe]

/-- C9 witness: a pre-existing annotation disappears after a successful
create. -/
theorem room_create_replaces_annotations_witness :
    (roomCreate defaultWire false { annotations := [("prior", "x")] }).2.1.annotations =
      [(extNameKey, "!r:x.com")] ∧
    lookupStr (roomCreate defaultWire false
        { annotations := [("prior", "x")] }).2.1.annotations "prior" = none :=
  ⟨(room_create_replaces_annotations defaultWire false _
      { roomID := "!r:x.com",
        powerLevels := some { eventsDefault := some 0, usersDefault := some 0 } }
      (.createRoomCall {} :: fallbackReads "!r:x.com") (by decide)).2.1,
   (room_create_replaces_annotations defaultWire false _
      { roomID := "!r:x.com",
        powerLevels := some { eventsDefault := some 0, usersDefault := some 0 } }
      (.createRoomCall {} :: fallbackReads "!r:x.com") (by decide)).2.2 "prior"
      (by decide)⟩

/-- With every state write succeeding, the conditional follow-up sequence
performs exactly the sends whose guard is set, in order. -/
theorem runFollowUps_all_ok (w : Wire) (roomID : String)
    (steps : List (Bool × String × String))
    (hall : ∀ ty, w.sendState roomID ty = .ok ()) :
    runFollowUps w roomID steps =
      (.ok (), (steps.filter (·.1)).map fun st => WireCall.sendState roomID st.2.1) := by
  induction steps with
  | nil => simp [runFollowUps]
  | cons st rest ih =>
    rcases st with ⟨cond, ty, msg⟩
    cases cond <;> simp [runFollowUps, hall, ih, List.filter_cons]

/-- C8 counterexample: in the spec's end-to-end scenario the creation call
and exactly one follow-up (the encryption write) are issued, but the Room
value `CreateRoom` returns does NOT have `EncryptionEnabled=true`: the
standard-API `GetRoom` it ends with never reads the encryption state, so
the flag stays false. -/
theorem createRoom_scenario_encryption_not_reflected :
    (CreateRoom defaultWire false scenarioRoomSpec).2 =
      [.createRoomCall (reqForRoomSpec scenarioRoomSpec),
       .sendState "!r:x.com" evEncryption] ++ fallbackReads "!r:x.com" ∧
    resultEncryptionFlag (CreateRoom defaultWire false scenarioRoomSpec).1 =
      some false :=
  ⟨by decide, by decide⟩

/-- C8 amended: the scenario issues exactly one creation call carrying the
scenario's name/preset/invite and exactly one follow-up state write (the
encryption event) before `GetRoom`'s reads, but the returned room has
`EncryptionEnabled = false` (the standard-API `GetRoom` never reads the
encryption state); in general each follow-up write is issued exactly when
its spec field is set, and the FIRST follow-up failure — at any of the
five steps: guest access, history visibility, join rules, encryption, or
avatar — aborts the remainder with an error naming the failed step,
issuing no later state write and no read. -/
theorem createRoom_scenario_amended (w : Wire) (rid : String)
    (h1 : w.createRoom (reqForRoomSpec scenarioRoomSpec) = .ok rid)
    (h2 : validateMatrixID rid "room" = .ok ())
    (h3 : w.sendState rid evEncryption = .ok ()) :
    (CreateRoom w false scenarioRoomSpec).2 =
      [.createRoomCall (reqForRoomSpec scenarioRoomSpec),
       .sendState rid evEncryption] ++ fallbackReads rid ∧
    (reqForRoomSpec scenarioRoomSpec).name = "Team Discussion" ∧
    (reqForRoomSpec scenarioRoomSpec).preset = "private_chat" ∧
    (reqForRoomSpec scenarioRoomSpec).invite = ["@bob:x.com"] ∧
    resultEncryptionFlag (CreateRoom w false scenarioRoomSpec).1 = some false ∧
    (∀ (spec : RoomSpec) (rid' : String),
        w.createRoom (reqForRoomSpec spec) = .ok rid' →
        validateMatrixID rid' "room" = .ok () →
        (∀ ty, w.sendState rid' ty = .ok ()) →
        (spec.avatarURL = "" ∨ w.parseContentURI spec.avatarURL = .ok ()) →
        (CreateRoom w false spec).2 =
          .createRoomCall (reqForRoomSpec spec) ::
            ((if spec.guestAccess != "" then [WireCall.sendState rid' evGuestAccess]
              else []) ++
             (if spec.historyVisibility != "" then
               [WireCall.sendState rid' evHistoryVisibility] else []) ++
             (if spec.joinRules != "" then [WireCall.sendState rid' evJoinRules]
              else []) ++
             (if spec.encryptionEnabled then [WireCall.sendState rid' evEncryption]
              else []) ++
             (if spec.avatarURL != "" then [WireCall.sendState rid' evRoomAvatar]
              else []) ++
             fallbackReads rid')) ∧
    (∀ (spec : RoomSpec) (rid' : String) (e : MatrixError),
        w.createRoom (reqForRoomSpec spec) = .ok rid' →
        spec.guestAccess ≠ "" →
        w.sendState rid' evGuestAccess = .error e →
        CreateRoom w false spec =
          (.error (wrapErr e "failed to set guest access"),
           [.createRoomCall (reqForRoomSpec spec),
            .sendState rid' evGuestAccess])) ∧
    (∀ (spec : RoomSpec) (rid' : String) (e : MatrixError),
        w.createRoom (reqForRoomSpec spec) = .ok rid' →
        (spec.guestAccess = "" ∨ w.sendState rid' evGuestAccess = .ok ()) →
        spec.historyVisibility ≠ "" →
        w.sendState rid' evHistoryVisibility = .error e →
        CreateRoom w false spec =
          (.error (wrapErr e "failed to set history visibility"),
           .createRoomCall (reqForRoomSpec spec) ::
             ((if spec.guestAccess != "" then [WireCall.sendState rid' evGuestAccess]
               else []) ++
              [WireCall.sendState rid' evHistoryVisibility]))) ∧
    (∀ (spec : RoomSpec) (rid' : String) (e : MatrixError),
        w.createRoom (reqForRoomSpec spec) = .ok rid' →
        (spec.guestAccess = "" ∨ w.sendState rid' evGuestAccess = .ok ()) →
        (spec.historyVisibility = "" ∨
          w.sendState rid' evHistoryVisibility = .ok ()) →
        spec.joinRules ≠ "" →
        w.sendState rid' evJoinRules = .error e →
        CreateRoom w false spec =
          (.error (wrapErr e "failed to set join rules"),
           .createRoomCall (reqForRoomSpec spec) ::
             ((if spec.guestAccess != "" then [WireCall.sendState rid' evGuestAccess]
               else []) ++
              (if spec.historyVisibility != "" then
                [WireCall.sendState rid' evHistoryVisibility] else []) ++
              [WireCall.sendState rid' evJoinRules]))) ∧
    (∀ (spec : RoomSpec) (rid' : String) (e : MatrixError),
        w.createRoom (reqForRoomSpec spec) = .ok rid' →
        (spec.guestAccess = "" ∨ w.sendState rid' evGuestAccess = .ok ()) →
        (spec.historyVisibility = "" ∨
          w.sendState rid' evHistoryVisibility = .ok ()) →
        (spec.joinRules = "" ∨ w.sendState rid' evJoinRules = .ok ()) →
        spec.encryptionEnabled = true →
        w.sendState rid' evEncryption = .error e →
        CreateRoom w false spec =
          (.error (wrapErr e "failed to enable encryption"),
           .createRoomCall (reqForRoomSpec spec) ::
             ((if spec.guestAccess != "" then [WireCall.sendState rid' evGuestAccess]
               else []) ++
              (if spec.historyVisibility != "" then
                [WireCall.sendState rid' evHistoryVisibility] else []) ++
              (if spec.joinRules != "" then [WireCall.sendState rid' evJoinRules]
               else []) ++
              [WireCall.sendState rid' evEncryption]))) ∧
    (∀ (spec : RoomSpec) (rid' : String) (e : MatrixError),
        w.createRoom (reqForRoomSpec spec) = .ok rid' →
        (spec.guestAccess = "" ∨ w.sendState rid' evGuestAccess = .ok ()) →
        (spec.historyVisibility = "" ∨
          w.sendState rid' evHistoryVisibility = .ok ()) →
        (spec.joinRules = "" ∨ w.sendState rid' evJoinRules = .ok ()) →
        (spec.encryptionEnabled = false ∨
          w.sendState rid' evEncryption = .ok ()) →
        spec.avatarURL ≠ "" →
        w.parseContentURI spec.avatarURL = .ok () →
        w.sendState rid' evRoomAvatar = .error e →
        CreateRoom w false spec =
          (.error (wrapErr e "failed to set avatar"),
           .createRoomCall (reqForRoomSpec spec) ::
             ((if spec.guestAccess != "" then [WireCall.sendState rid' evGuestAccess]
               else []) ++
              (if spec.historyVisibility != "" then
                [WireCall.sendState rid' evHistoryVisibility] else []) ++
              (if spec.joinRules != "" then [WireCall.sendState rid' evJoinRules]
               else []) ++
              (if spec.encryptionEnabled then [WireCall.sendState rid' evEncryption]
               else []) ++
              [WireCall.sendState rid' evRoomAvatar]))) := by
  have g1 : scenarioRoomSpec.guestAccess = "" := rfl
  have g2 : scenarioRoomSpec.historyVisibility = "" := rfl
  have g3 : scenarioRoomSpec.joinRules = "" := rfl
  have g4 : scenarioRoomSpec.encryptionEnabled = true := rfl
  have g5 : scenarioRoomSpec.avatarURL = "" := rfl
  refine ⟨?_, rfl, rfl, rfl, ?_, ?_, ?_, ?_, ?_, ?_, ?_⟩
  · simp [CreateRoom, h1, runFollowUps, h3, g1, g2, g3, g4, g5, GetRoom, h2]
  · simp [CreateRoom, h1, runFollowUps, h3, g1, g2, g3, g4, g5, GetRoom, h2,
      resultEncryptionFlag]
  · intro spec rid' hcr hval hall hav
    have hfu := runFollowUps_all_ok w rid'
      [(spec.guestAccess != "", evGuestAccess, "failed to set guest access"),
       (spec.historyVisibility != "", evHistoryVisibility,
        "failed to set history visibility"),
       (spec.joinRules != "", evJoinRules, "failed to set join rules"),
       (spec.encryptionEnabled, evEncryption, "failed to enable encryption")] hall
    simp only [CreateRoom, hcr]
    rw [hfu]
    by_cases hA : spec.avatarURL = ""
    · simp only [GetRoom, hval]
      cases hga : (spec.guestAccess != "") <;>
        cases hhv : (spec.historyVisibility != "") <;>
          cases hjr : (spec.joinRules != "") <;>
            cases hen : spec.encryptionEnabled <;>
              simp [hga, hhv, hjr, hen, hA, List.filter_cons]
    · have hpar : w.parseContentURI spec.avatarURL = .ok () := hav.resolve_left hA
      simp only [GetRoom, hval]
      cases hga : (spec.guestAccess != "") <;>
        cases hhv : (spec.historyVisibility != "") <;>
          cases hjr : (spec.joinRules != "") <;>
            cases hen : spec.encryptionEnabled <;>
              simp [hga, hhv, hjr, hen, hA, hpar, hall, List.filter_cons]
  · intro spec rid' e hcr hga hsend
    have hb : (spec.guestAccess != "") = true := bne_iff_ne.mpr hga
    simp [CreateRoom, hcr, runFollowUps, hb, hsend]
  · intro spec rid' e hcr hg hset hfail
    have hb : (spec.historyVisibility != "") = true := bne_iff_ne.mpr hset
    have hgok : (spec.guestAccess != "") = true →
        w.sendState rid' evGuestAccess = .ok () :=
      fun hbg => hg.resolve_left (bne_iff_ne.mp hbg)
    simp only [CreateRoom, hcr]
    cases hbg : (spec.guestAccess != "") <;>
      simp [runFollowUps, hbg, hb, hfail, hgok]
  · intro spec rid' e hcr hg hh hset hfail
    have hb : (spec.joinRules != "") = true := bne_iff_ne.mpr hset
    have hgok : (spec.guestAccess != "") = true →
        w.sendState rid' evGuestAccess = .ok () :=
      fun hbg => hg.resolve_left (bne_iff_ne.mp hbg)
    have hhok : (spec.historyVisibility != "") = true →
        w.sendState rid' evHistoryVisibility = .ok () :=
      fun hbh => hh.resolve_left (bne_iff_ne.mp hbh)
    simp only [CreateRoom, hcr]
    cases hbg : (spec.guestAccess != "") <;>
      cases hbh : (spec.historyVisibility != "") <;>
        simp [runFollowUps, hbg, hbh, hb, hfail, hgok, hhok]
  · intro spec rid' e hcr hg hh hj hset hfail
    have hgok : (spec.guestAccess != "") = true →
        w.sendState rid' evGuestAccess = .ok () :=
      fun hbg => hg.resolve_left (bne_iff_ne.mp hbg)
    have hhok : (spec.historyVisibility != "") = true →
        w.sendState rid' evHistoryVisibility = .ok () :=
      fun hbh => hh.resolve_left (bne_iff_ne.mp hbh)
    have hjok : (spec.joinRules != "") = true →
        w.sendState rid' evJoinRules = .ok () :=
      fun hbj => hj.resolve_left (bne_iff_ne.mp hbj)
    simp only [CreateRoom, hcr]
    cases hbg : (spec.guestAccess != "") <;>
      cases hbh : (spec.historyVisibility != "") <;>
        cases hbj : (spec.joinRules != "") <;>
          simp [runFollowUps, hbg, hbh, hbj, hset, hfail, hgok, hhok, hjok]
  · intro spec rid' e hcr hg hh hj hen hAset hpar hfail
    have hbA : (spec.avatarURL != "") = true := bne_iff_ne.mpr hAset
    have hgok : (spec.guestAccess != "") = true →
        w.sendState rid' evGuestAccess = .ok () :=
      fun hbg => hg.resolve_left (bne_iff_ne.mp hbg)
    have hhok : (spec.historyVisibility != "") = true →
        w.sendState rid' evHistoryVisibility = .ok () :=
      fun hbh => hh.resolve_left (bne_iff_ne.mp hbh)
    have hjok : (spec.joinRules != "") = true →
        w.sendState rid' evJoinRules = .ok () :=
      fun hbj => hj.resolve_left (bne_iff_ne.mp hbj)
    have heok : spec.encryptionEnabled = true →
        w.sendState rid' evEncryption = .ok () :=
      fun hbe => hen.resolve_left (by simp [hbe])
    simp only [CreateRoom, hcr]
    cases hbg : (spec.guestAccess != "") <;>
      cases hbh : (spec.historyVisibility != "") <;>
        cases hbj : (spec.joinRules != "") <;>
          cases hbe : spec.encryptionEnabled <;>
            simp [runFollowUps, hbg, hbh, hbj, hbe, hbA, hpar, hfail,
              hgok, hhok, hjok, heok]

/-- C8 amended witness: the scenario evaluated against a concrete server:
one creation call, one encryption write, then the reads — and the returned
room reports encryption disabled. -/
theorem createRoom_scenario_amended_witness :
    (CreateRoom defaultWire false scenarioRoomSpec).2 =
      [.createRoomCall (reqForRoomSpec scenarioRoomSpec),
       .sendState "!r:x.com" evEncryption] ++ fallbackReads "!r:x.com" ∧
    resultEncryptionFlag (CreateRoom defaultWire false scenarioRoomSpec).1 =
      some false :=
  ⟨(createRoom_scenario_amended defaultWire "!r:x.com"
      (by decide) (by decide) (by decide)).1,
   (createRoom_scenario_amended defaultWire "!r:x.com"
      (by decide) (by decide) (by decide)).2.2.2.2.1⟩

end ProviderMatrix
